import Mathlib

/-!
Verification of the light-token issuance/validation engine and the
request-response pairing protocol of the eIDAS specific node
(django-eidas-specific-node).

Strings of the Python code are modelled as `List Char`, Python `dict`s of
requested attributes as association lists, and the message store as a
function from keys to optional payloads.  Components whose code is present
in `src` (`eidas_node/connector/views.py`, `eidas_node/storage/ignite.py`)
are translated directly; components that the repository's tests pin but
whose module is absent from `src` (the `LightToken` codec of
`eidas_node/models.py` and the proxy-service views) are modelled from the
specification and carry a doc comment saying so.
-/

namespace EidasNode

/-- Python strings are modelled as lists of characters. -/
abbrev Str := List Char

/-- Shorthand turning a Lean string literal into the `List Char` model. -/
def str (s : String) : Str := s.data

/-- The field delimiter of the encoded light token wire form. -/
def delim : Char := '|'

/-- `eidas_node.constants.TOKEN_ID_PREFIX`: the fixed one-character role
marker `'T'` that token ids carry (pinned by the tests: a token created
from uuid `0uuid4` has id `T0uuid4`). -/
def tokenMark : Char := 'T'

/-- The error taxonomy of `eidas_node.errors` as raised by the code under
verification.  `parseError` stands for `ParseError`; every other
constructor stands for a `SecurityError` with the corresponding message. -/
inductive Err where
  | parseError
  | invalidTokenDigest
  | invalidTokenIssuer
  | tokenExpired
  | responseNotFound
  | invalidInResponseTo
  | cannotPairResponseAndRequest
  | invalidSamlRequestIssuer
deriving DecidableEq

/-- Classification of the error kinds: everything except `parseError`
models a `SecurityError`. -/
def Err.is_security_error : Err → Bool
  | .parseError => false
  | _ => true

/-- `eidas_node.models.LightToken`: id, issuer, creation timestamp.
Timestamps are abstracted as natural numbers (the code keeps UTC datetimes
with a canonical textual form; only injectivity of that form matters
here). -/
structure LightToken where
  id : Str
  issuer : Str
  created : Nat
deriving DecidableEq

/-- Split a character list on a delimiter, Python `str.split(d)`:
`splitOnChar d [] = [[]]` and the number of parts is one more than the
number of delimiters. -/
def splitOnChar (d : Char) : Str → List Str
  | [] => [[]]
  | c :: cs =>
    match splitOnChar d cs with
    | [] => [[c]]
    | p :: ps => if c = d then [] :: p :: ps else (c :: p) :: ps

theorem splitOnChar_ne_nil (d : Char) (s : Str) : splitOnChar d s ≠ [] := by
  cases s with
  | nil => simp [splitOnChar]
  | cons c cs =>
    simp only [splitOnChar]
    cases splitOnChar d cs with
    | nil => simp
    | cons p ps =>
      by_cases h : c = d <;> simp [h]

theorem splitOnChar_delim_free (d : Char) (p : Str) (h : d ∉ p) :
    splitOnChar d p = [p] := by
  induction p with
  | nil => rfl
  | cons c cs ih =>
    simp only [List.mem_cons, not_or] at h
    simp only [splitOnChar, ih h.2]
    simp [Ne.symm h.1]

theorem splitOnChar_append (d : Char) (p s : Str) (h : d ∉ p) :
    splitOnChar d (p ++ d :: s) = p :: splitOnChar d s := by
  induction p with
  | nil =>
    simp only [List.nil_append, splitOnChar]
    cases hs : splitOnChar d s with
    | nil => exact absurd hs (splitOnChar_ne_nil d s)
    | cons q qs => simp
  | cons c cs ih =>
    simp only [List.mem_cons, not_or] at h
    rw [List.cons_append]
    simp only [splitOnChar]
    rw [ih h.2]
    simp [Ne.symm h.1]

/-- Modelled from the spec: `eidas_node.models.LightToken.encode` (the
module is absent from `src`; only its callers and tests are there).
Produces the delimited wire form `id | issuer | created | digest`, where
`digest` is the keyed digest of the three fields.  The configured hash
algorithm and shared secret are abstracted into the `digest` function, and
the canonical timestamp text into `tsRepr`. -/
def encodeToken (digest : Str → Str → Str → Str) (tsRepr : Nat → Str)
    (t : LightToken) : Str :=
  t.id ++ delim :: (t.issuer ++ delim :: (tsRepr t.created ++ delim ::
    digest t.id t.issuer (tsRepr t.created)))

/-- Modelled from the spec: `eidas_node.models.LightToken.decode` (the
module is absent from `src`).  Splits the wire form into exactly four
parts (`ParseError` otherwise), parses the timestamp (`ParseError` if
malformed), recomputes the keyed digest over the recovered fields and
compares (`SecurityError` if they differ). -/
def decodeToken (digest : Str → Str → Str → Str)
    (tsParse : Str → Option Nat) (wire : Str) : Except Err LightToken :=
  match splitOnChar delim wire with
  | [i, iss, ts, dg] =>
    match tsParse ts with
    | none => .error .parseError
    | some created =>
      if dg = digest i iss ts then .ok ⟨i, iss, created⟩
      else .error .invalidTokenDigest
  | _ => .error .parseError

/-- Helper: decoding an encoded token recovers it, for any keyed digest
function and faithful timestamp codec with delimiter-free output, when the
token's own fields are delimiter-free. -/
theorem decodeToken_encodeToken (digest : Str → Str → Str → Str)
    (tsRepr : Nat → Str) (tsParse : Str → Option Nat) (t : LightToken)
    (hts : ∀ n, tsParse (tsRepr n) = some n)
    (htsd : ∀ n, delim ∉ tsRepr n)
    (hdg : ∀ a b c, delim ∉ digest a b c)
    (hid : delim ∉ t.id) (hiss : delim ∉ t.issuer) :
    decodeToken digest tsParse (encodeToken digest tsRepr t) = .ok t := by
  unfold encodeToken decodeToken
  rw [splitOnChar_append delim t.id _ hid,
    splitOnChar_append delim t.issuer _ hiss,
    splitOnChar_append delim (tsRepr t.created) _ (htsd t.created),
    splitOnChar_delim_free delim _ (hdg t.id t.issuer (tsRepr t.created))]
  simp [hts t.created]

/-- Claim C3: for every valid `LightToken` and every hash algorithm and
shared secret (abstracted as the keyed digest function) with a faithful
timestamp codec, decoding the encoded wire form returns the original
token. -/
theorem decode_encode_roundtrip (digest : Str → Str → Str → Str)
    (tsRepr : Nat → Str) (tsParse : Str → Option Nat) (t : LightToken)
    (hts : ∀ n, tsParse (tsRepr n) = some n)
    (htsd : ∀ n, delim ∉ tsRepr n)
    (hdg : ∀ a b c, delim ∉ digest a b c)
    (hid : delim ∉ t.id) (hiss : delim ∉ t.issuer) :
    decodeToken digest tsParse (encodeToken digest tsRepr t) = .ok t :=
  decodeToken_encodeToken digest tsRepr tsParse t hts htsd hdg hid hiss

/-- A concrete keyed digest function for witnesses: a constant single
character, trivially delimiter-free. -/
def digestW : Str → Str → Str → Str :=
  fun _ _ _ => ['D']

/-- A concrete injective timestamp representation for witnesses (unary). -/
def tsReprU (n : Nat) : Str := List.replicate n 'x'

/-- Parser inverting `tsReprU`. -/
def tsParseU (s : Str) : Option Nat :=
  if s.all (fun c => c = 'x') then some s.length else none

theorem tsParseU_tsReprU (n : Nat) : tsParseU (tsReprU n) = some n := by
  simp [tsParseU, tsReprU, List.all_eq_true, List.mem_replicate]

theorem delim_not_mem_tsReprU (n : Nat) : delim ∉ tsReprU n := by
  simp [tsReprU, List.mem_replicate, delim]

theorem delim_not_mem_digestW (a b c : Str) : delim ∉ digestW a b c := by
  simp [digestW, delim]

/-- Witness for claim C3: the round-trip evaluated at a concrete token,
digest function and timestamp codec. -/
theorem decode_encode_roundtrip_witness :
    decodeToken digestW tsParseU
      (encodeToken digestW tsReprU ⟨str "Tid1", str "issuer1", 3⟩) =
      .ok ⟨str "Tid1", str "issuer1", 3⟩ :=
  decode_encode_roundtrip digestW tsReprU tsParseU
    ⟨str "Tid1", str "issuer1", 3⟩ tsParseU_tsReprU delim_not_mem_tsReprU
    delim_not_mem_digestW (by decide) (by decide)

/-- `ConnectorResponseView.get_light_token`
(src/eidas_node/connector/views.py, lines 245-268): decode the encoded
token from the POST data, reject a wrong issuer, and reject an expired
token when a truthy lifetime (in minutes) is configured
(`if lifetime and token.created + timedelta(minutes=lifetime) <
datetime.now(): raise SecurityError`).  Timestamps are modelled in
minutes; `now` is the current time. -/
def get_light_token (digest : Str → Str → Str → Str)
    (tsParse : Str → Option Nat) (encoded_token : Str) (issuer : Str)
    (lifetime : Option Nat) (now : Nat) : Except Err LightToken :=
  match decodeToken digest tsParse encoded_token with
  | .error e => .error e
  | .ok token =>
    if token.issuer ≠ issuer then .error .invalidTokenIssuer
    else
      match lifetime with
      | some l =>
        if l ≠ 0 ∧ token.created + l < now then .error .tokenExpired
        else .ok token
      | none => .ok token

/-- Claim C5: with a configured (truthy) lifetime, a decoded token with a
valid digest and matching issuer is rejected as expired (a SecurityError)
exactly when `created + lifetime` is before the current time, and accepted
when still within its lifetime. -/
theorem get_light_token_expiry (digest : Str → Str → Str → Str)
    (tsRepr : Nat → Str) (tsParse : Str → Option Nat) (t : LightToken)
    (l now : Nat)
    (hts : ∀ n, tsParse (tsRepr n) = some n)
    (htsd : ∀ n, delim ∉ tsRepr n)
    (hdg : ∀ a b c, delim ∉ digest a b c)
    (hid : delim ∉ t.id) (hiss : delim ∉ t.issuer)
    (hl : l ≠ 0) :
    (t.created + l < now →
      get_light_token digest tsParse (encodeToken digest tsRepr t)
        t.issuer (some l) now = .error .tokenExpired ∧
      Err.tokenExpired.is_security_error = true) ∧
    (¬ t.created + l < now →
      get_light_token digest tsParse (encodeToken digest tsRepr t)
        t.issuer (some l) now = .ok t) := by
  have hdec := decodeToken_encodeToken digest tsRepr tsParse t hts htsd
    hdg hid hiss
  constructor
  · intro hexp
    refine ⟨?_, rfl⟩
    simp [get_light_token, hdec, hl, hexp]
  · intro hexp
    simp [get_light_token, hdec, hl, hexp]

/-- Witness for claim C5: a token created at minute 10 with lifetime 5 is
rejected at minute 100 and accepted at minute 15. -/
theorem get_light_token_expiry_witness :
    get_light_token digestW tsParseU
      (encodeToken digestW tsReprU ⟨str "Tid1", str "iss", 10⟩)
      (str "iss") (some 5) 100 = .error .tokenExpired ∧
    get_light_token digestW tsParseU
      (encodeToken digestW tsReprU ⟨str "Tid1", str "iss", 10⟩)
      (str "iss") (some 5) 15 = .ok ⟨str "Tid1", str "iss", 10⟩ :=
  ⟨((get_light_token_expiry digestW tsReprU tsParseU
      ⟨str "Tid1", str "iss", 10⟩ 5 100 tsParseU_tsReprU
      delim_not_mem_tsReprU delim_not_mem_digestW (by decide) (by decide)
      (by decide)).1 (by decide)).1,
    (get_light_token_expiry digestW tsReprU tsParseU
      ⟨str "Tid1", str "iss", 10⟩ 5 15 tsParseU_tsReprU
      delim_not_mem_tsReprU delim_not_mem_digestW (by decide) (by decide)
      (by decide)).2 (by decide)⟩

/-- Claim C9: a lifetime of `None` or `0` is falsy in the guard
`if lifetime and ...`, so the expiry check is skipped entirely: any token
whose digest and issuer checks pass is accepted no matter how old it is. -/
theorem get_light_token_no_lifetime (digest : Str → Str → Str → Str)
    (tsRepr : Nat → Str) (tsParse : Str → Option Nat) (t : LightToken)
    (now : Nat)
    (hts : ∀ n, tsParse (tsRepr n) = some n)
    (htsd : ∀ n, delim ∉ tsRepr n)
    (hdg : ∀ a b c, delim ∉ digest a b c)
    (hid : delim ∉ t.id) (hiss : delim ∉ t.issuer) :
    get_light_token digest tsParse (encodeToken digest tsRepr t)
      t.issuer none now = .ok t ∧
    get_light_token digest tsParse (encodeToken digest tsRepr t)
      t.issuer (some 0) now = .ok t := by
  have hdec := decodeToken_encodeToken digest tsRepr tsParse t hts htsd
    hdg hid hiss
  constructor <;> simp [get_light_token, hdec]

/-- Witness for claim C9: a token created at minute 0 is accepted at
minute 1000000 when the lifetime is absent or zero. -/
theorem get_light_token_no_lifetime_witness :
    get_light_token digestW tsParseU
      (encodeToken digestW tsReprU ⟨str "Tid1", str "iss", 0⟩)
      (str "iss") none 1000000 = .ok ⟨str "Tid1", str "iss", 0⟩ ∧
    get_light_token digestW tsParseU
      (encodeToken digestW tsReprU ⟨str "Tid1", str "iss", 0⟩)
      (str "iss") (some 0) 1000000 = .ok ⟨str "Tid1", str "iss", 0⟩ :=
  get_light_token_no_lifetime digestW tsReprU tsParseU
    ⟨str "Tid1", str "iss", 0⟩ 1000000 tsParseU_tsReprU
    delim_not_mem_tsReprU delim_not_mem_digestW (by decide) (by decide)

/-- Requested attributes: a Python `dict` mapping an attribute name to the
ordered sequence of allowed values, modelled as an association list. -/
abbrev AttrMap := List (Str × List Str)

/-- Lookup in the association-list model of a Python `dict` (first match,
matching `dict` semantics when keys are unique). -/
def lookupA : AttrMap → Str → Option (List Str)
  | [], _ => none
  | (k', v) :: rest, k => if k' = k then some v else lookupA rest k

/-- `ServiceProviderRequestView.adjust_requested_attributes`
(src/eidas_node/connector/views.py, lines 150-161): when the allow-list is
truthy (non-empty), delete every requested attribute not on it; then
insert every mandatory attribute name absent from the map with an empty
value sequence.  `MANDATORY_ATTRIBUTE_NAMES` is passed as the `mandatory`
parameter. -/
def adjust_requested_attributes (allowed mandatory : List Str)
    (attributes : AttrMap) : AttrMap :=
  let filtered :=
    if allowed = [] then attributes
    else attributes.filter (fun p => decide (p.1 ∈ allowed))
  mandatory.foldl
    (fun acc name =>
      if (lookupA acc name).isSome then acc else acc ++ [(name, [])])
    filtered

theorem lookupA_append (m m' : AttrMap) (k : Str) :
    lookupA (m ++ m') k =
      match lookupA m k with
      | some v => some v
      | none => lookupA m' k := by
  induction m with
  | nil => simp [lookupA]
  | cons p rest ih =>
    obtain ⟨k', v⟩ := p
    by_cases h : k' = k <;> simp [lookupA, h, ih]

theorem lookupA_filter_allowed (allowed : List Str) (m : AttrMap)
    (k : Str) :
    lookupA (m.filter (fun p => decide (p.1 ∈ allowed))) k =
      if k ∈ allowed then lookupA m k else none := by
  induction m with
  | nil => simp [lookupA]
  | cons p rest ih =>
    obtain ⟨k', v⟩ := p
    by_cases hk : k' = k
    · subst hk
      by_cases ha : k' ∈ allowed <;> simp [lookupA, List.filter, ha, ih]
    · by_cases ha : k' ∈ allowed <;> simp [lookupA, List.filter, ha, ih, hk]

theorem lookupA_insert_mandatory (mandatory : List Str) (m : AttrMap)
    (k : Str) :
    lookupA
      (mandatory.foldl
        (fun acc name =>
          if (lookupA acc name).isSome then acc else acc ++ [(name, [])])
        m) k =
      match lookupA m k with
      | some v => some v
      | none => if k ∈ mandatory then some [] else none := by
  induction mandatory generalizing m with
  | nil =>
    simp only [List.foldl_nil]
    cases hmk : lookupA m k <;> simp [hmk]
  | cons n ns ih =>
    simp only [List.foldl_cons, ih]
    by_cases hn : (lookupA m n).isSome = true
    · rw [if_pos hn]
      cases hmk : lookupA m k with
      | some v => simp
      | none =>
        by_cases hkn : k = n
        · subst hkn
          rw [hmk] at hn
          simp at hn
        · simp [List.mem_cons, hkn]
    · rw [if_neg hn, lookupA_append]
      cases hmk : lookupA m k with
      | some v => simp
      | none =>
        by_cases hkn : k = n
        · subst hkn
          simp [lookupA]
        · have hnk : ¬ n = k := fun h => hkn h.symm
          simp [lookupA, hnk, List.mem_cons, hkn]

/-- The pointwise behaviour of `adjust_requested_attributes`: an entry
survives with its value unchanged iff its key passes the allow-list (or no
allow-list is configured); otherwise the key maps to the empty sequence if
mandatory, and to nothing at all if not. -/
theorem adjust_requested_attributes_lookup (allowed mandatory : List Str)
    (m : AttrMap) (k : Str) :
    lookupA (adjust_requested_attributes allowed mandatory m) k =
      if (allowed = [] ∨ k ∈ allowed) ∧ (lookupA m k).isSome then
        lookupA m k
      else if k ∈ mandatory then some [] else none := by
  unfold adjust_requested_attributes
  rw [lookupA_insert_mandatory]
  by_cases ha : allowed = []
  · rw [if_pos ha]
    simp only [ha, true_or, true_and]
    cases hmk : lookupA m k <;> simp [hmk]
  · rw [if_neg ha, lookupA_filter_allowed]
    simp only [ha, false_or]
    by_cases hk : k ∈ allowed
    · rw [if_pos hk]
      simp only [hk, true_and]
      cases hmk : lookupA m k <;> simp [hmk]
    · rw [if_neg hk]
      simp [hk]

/-- Counterexample for claim C6 as stated: with allow-list `{A, B}` and
mandatory set `{B, C}`, the request `{A: [v1], X: [v2]}` is adjusted to a
map in which `B` is present with an empty value sequence, whereas the
claimed stored map `{A: [v1], C: []}` has no entry for `B` at all. -/
theorem adjust_requested_attributes_claim_counterexample :
    lookupA
      (adjust_requested_attributes [str "A", str "B"] [str "B", str "C"]
        [(str "A", [str "v1"]), (str "X", [str "v2"])]) (str "B") =
      some [] ∧
    lookupA [(str "A", [str "v1"]), (str "C", [])] (str "B") = none := by
  constructor <;> decide

/-- Claim C6 (amended): the adjustment drops every requested attribute not
on a configured allow-list, inserts every mandatory attribute absent from
the map with an empty value sequence, and leaves other entries' values
unchanged; in particular the example request `{A: [v1], X: [v2]}` with
allow-list `{A, B}` and mandatory set `{B, C}` is stored as
`{A: [v1], B: [], C: []}` (the claim's displayed map omitted `B: []`). -/
theorem adjust_requested_attributes_policy :
    (∀ (allowed mandatory : List Str) (m : AttrMap) (k : Str),
      lookupA (adjust_requested_attributes allowed mandatory m) k =
        if (allowed = [] ∨ k ∈ allowed) ∧ (lookupA m k).isSome then
          lookupA m k
        else if k ∈ mandatory then some [] else none) ∧
    adjust_requested_attributes [str "A", str "B"] [str "B", str "C"]
      [(str "A", [str "v1"]), (str "X", [str "v2"])] =
      [(str "A", [str "v1"]), (str "B", []), (str "C", [])] :=
  ⟨adjust_requested_attributes_lookup, by decide⟩

/-- Claim C10: `adjust_requested_attributes` is idempotent — adjusting an
already-adjusted map leaves it unchanged (as a mapping, which is what
Python dict equality compares). -/
theorem adjust_requested_attributes_idempotent
    (allowed mandatory : List Str) (m : AttrMap) (k : Str) :
    lookupA
      (adjust_requested_attributes allowed mandatory
        (adjust_requested_attributes allowed mandatory m)) k =
      lookupA (adjust_requested_attributes allowed mandatory m) k := by
  simp only [adjust_requested_attributes_lookup]
  by_cases hA : allowed = [] ∨ k ∈ allowed
  · simp only [hA, true_and]
    cases hmk : lookupA m k with
    | some v => simp
    | none =>
      by_cases hM : k ∈ mandatory <;> simp [hM]
  · simp only [hA, false_and, if_false]

/-- `eidas_node.models.LightRequest` (fields relevant to the claims):
id, issuer, requested attributes. -/
structure LightRequest where
  id : Str
  issuer : Str
  requested_attributes : AttrMap
deriving DecidableEq

/-- `eidas_node.models.LightResponse` (fields relevant to the claims):
id, in-response-to id, issuer. -/
structure LightResponse where
  id : Str
  in_response_to_id : Str
  issuer : Str
deriving DecidableEq

/-- The message store surface: a key/value mapping from correlation ids to
optional payloads. -/
abbrev Store (V : Type) := Str → Option V

/-- Modelled from the spec: `pop(id) -> payload|absent` is a get-and-delete
(`pop_light_response` of the `LightStorage` interface; the method is
absent from `src/eidas_node/storage/ignite.py`, which only shows `get` and
`put`).  Returns the popped value and the store after deletion. -/
def pop_store {V : Type} (store : Store V) (uid : Str) :
    Option V × Store V :=
  (store uid, fun k => if k = uid then none else store k)

/-- `ConnectorResponseView.get_light_response`
(src/eidas_node/connector/views.py, lines 280-292): pop the stored light
response by the token id; absence raises
`SecurityError('Response not found in light storage.')`.  The resulting
store is returned alongside. -/
def get_light_response (storage : Store LightResponse) (token_id : Str) :
    Except Err LightResponse × Store LightResponse :=
  match pop_store storage token_id with
  | (none, s) => (.error .responseNotFound, s)
  | (some r, s) => (.ok r, s)

/-- Claim C2: once `pop` has succeeded for a key, a second `pop` of the
same key returns absent, and the Response Handler then raises the
"response not found" SecurityError — the same token never delivers the
payload twice. -/
theorem get_light_response_at_most_once (storage : Store LightResponse)
    (token_id : Str) (r : LightResponse)
    (h : (get_light_response storage token_id).1 = .ok r) :
    (pop_store (get_light_response storage token_id).2 token_id).1 =
      none ∧
    (get_light_response (get_light_response storage token_id).2
      token_id).1 = .error .responseNotFound ∧
    Err.responseNotFound.is_security_error = true := by
  cases hs : storage token_id with
  | none => simp [get_light_response, pop_store, hs] at h
  | some v => simp [get_light_response, pop_store, hs, Err.is_security_error]

/-- A concrete one-entry response store for the claim C2 witness. -/
def storeW : Store LightResponse :=
  fun k =>
    if k = str "T1" then some ⟨str "T1", str "req1", str "iss"⟩ else none

/-- Witness for claim C2: popping the only entry once succeeds; the second
attempt reports the response as not found. -/
theorem get_light_response_at_most_once_witness :
    (pop_store (get_light_response storeW (str "T1")).2 (str "T1")).1 =
      none ∧
    (get_light_response (get_light_response storeW (str "T1")).2
      (str "T1")).1 = .error .responseNotFound ∧
    Err.responseNotFound.is_security_error = true :=
  get_light_response_at_most_once storeW (str "T1")
    ⟨str "T1", str "req1", str "iss"⟩ rfl

/-- `ServiceProviderRequestView.create_light_request`
(src/eidas_node/connector/views.py, lines 133-148): reject a falsy issuer
or an issuer differing from the expected service-provider issuer
(`hmac.compare_digest` is constant-time string equality), then rewrite the
issuer to this node's own one. -/
def create_light_request (request : LightRequest)
    (saml_issuer light_issuer : Str) : Except Err LightRequest :=
  if request.issuer = [] ∨ request.issuer ≠ saml_issuer then
    .error .invalidSamlRequestIssuer
  else .ok { request with issuer := light_issuer }

/-- `ServiceProviderRequestView.create_light_token`
(src/eidas_node/connector/views.py, lines 163-176): a fresh token whose id
is the role mark followed by a fresh uuid (`create_xml_uuid` prepends
`TOKEN_ID_PREFIX`), created now, with the configured issuer; returned
together with its encoded form. -/
def create_light_token (digest : Str → Str → Str → Str)
    (tsRepr : Nat → Str) (uuid issuer : Str) (now : Nat) :
    LightToken × Str :=
  let token : LightToken := ⟨tokenMark :: uuid, issuer, now⟩
  (token, encodeToken digest tsRepr token)

/-- `ServiceProviderRequestView.post`
(src/eidas_node/connector/views.py, lines 82-110): the request-handler
pipeline.  The external SAML parsing/signature step (`get_saml_request`
plus the Assertion Adapter derivation) is abstracted as its outcome
`parsed`; the uuid drawn for the fresh token is the `uuid` argument.  The
result is the view's outcome together with the list of store `put`
operations performed (the only `put` happens last, after every check). -/
def service_provider_request_post (digest : Str → Str → Str → Str)
    (tsRepr : Nat → Str) (parsed : Except Err LightRequest)
    (saml_issuer light_issuer : Str) (allowed mandatory : List Str)
    (uuid token_issuer : Str) (now : Nat) :
    Except Err (LightToken × Str × LightRequest) ×
      List (Str × LightRequest) :=
  match parsed with
  | .error e => (.error e, [])
  | .ok req0 =>
    match create_light_request req0 saml_issuer light_issuer with
    | .error e => (.error e, [])
    | .ok req1 =>
      let attrs := adjust_requested_attributes allowed mandatory
        req1.requested_attributes
      let req2 := { req1 with requested_attributes := attrs }
      let issued := create_light_token digest tsRepr uuid token_issuer now
      (.ok (issued.1, issued.2, req2), [(issued.1.id, req2)])

/-- Claim C4: any failure of parsing or issuer verification aborts the
request-handler pipeline with no partial state — the put list is empty and
no token appears in the result; in particular an inbound issuer differing
from the expected one is a SecurityError with nothing stored. -/
theorem service_provider_request_no_partial_state
    (digest : Str → Str → Str → Str) (tsRepr : Nat → Str)
    (parsed : Except Err LightRequest)
    (saml_issuer light_issuer : Str) (allowed mandatory : List Str)
    (uuid token_issuer : Str) (now : Nat) :
    (∀ e, (service_provider_request_post digest tsRepr parsed saml_issuer
        light_issuer allowed mandatory uuid token_issuer now).1 =
        .error e →
      (service_provider_request_post digest tsRepr parsed saml_issuer
        light_issuer allowed mandatory uuid token_issuer now).2 = []) ∧
    (∀ req0, parsed = .ok req0 →
      req0.issuer = [] ∨ req0.issuer ≠ saml_issuer →
      service_provider_request_post digest tsRepr parsed saml_issuer
        light_issuer allowed mandatory uuid token_issuer now =
        (.error .invalidSamlRequestIssuer, []) ∧
      Err.invalidSamlRequestIssuer.is_security_error = true) := by
  constructor
  · intro e he
    cases parsed with
    | error e0 => simp [service_provider_request_post]
    | ok req0 =>
      cases hc : create_light_request req0 saml_issuer light_issuer with
      | error e0 => simp [service_provider_request_post, hc]
      | ok req1 =>
        simp [service_provider_request_post, hc] at he
  · intro req0 hp hbad
    subst hp
    have hc : create_light_request req0 saml_issuer light_issuer =
        .error .invalidSamlRequestIssuer := by
      simp [create_light_request, hbad]
    refine ⟨?_, rfl⟩
    simp [service_provider_request_post, hc]

/-- Witness for claim C4: a parsed request declaring issuer `EVIL` when
the expected issuer is `SP1` makes the whole pipeline fail with the
SecurityError and an empty put list. -/
theorem service_provider_request_no_partial_state_witness :
    service_provider_request_post digestW tsReprU
      (.ok ⟨str "req1", str "EVIL", []⟩) (str "SP1") (str "own")
      [] [] (str "0uuid4") (str "tok-iss") 5 =
      (.error .invalidSamlRequestIssuer, []) :=
  ((service_provider_request_no_partial_state digestW tsReprU
      (.ok ⟨str "req1", str "EVIL", []⟩) (str "SP1") (str "own")
      [] [] (str "0uuid4") (str "tok-iss") 5).2
    ⟨str "req1", str "EVIL", []⟩ rfl (by decide)).1

/-- Modelled from the spec:
`IdentityProviderResponseView.create_light_response` (the proxy-service
views module is absent from `src`; only its tests are there, and they pin
the behaviour — see
src/eidas_node/tests/proxy_service/test_views.py, lines 199-244).  The
light response derived from the inbound assertion is the `resp` argument;
its declared in-response-to value must carry the role mark, which is
stripped to obtain the store key of the paired light request; the paired
request's id and this node's issuer are then written into the response.
The second component of the result is the list of store keys looked up,
showing that no lookup happens when the mark is missing. -/
def create_light_response (storage : Store LightRequest)
    (resp : LightResponse) (issuer : Str) :
    Except Err (LightResponse × LightRequest) × List Str :=
  match resp.in_response_to_id with
  | c :: rest =>
    if c = tokenMark then
      match storage rest with
      | none => (.error .cannotPairResponseAndRequest, [rest])
      | some req =>
        (.ok ({ resp with in_response_to_id := req.id,
                          issuer := issuer }, req), [rest])
    else (.error .invalidInResponseTo, [])
  | [] => (.error .invalidInResponseTo, [])

/-- The light request stored for the claim C1 scenarios. -/
def reqW : LightRequest := ⟨str "test-light-request-id", str "conn", []⟩

/-- A store holding `reqW` under the unprefixed key `R1` only. -/
def storeOnlyR : Store LightRequest :=
  fun k => if k = str "R1" then some reqW else none

/-- Counterexample for claim C1 as stated: with in-response-to `TR1`
(mark + `R1`), the pairing succeeds although nothing was ever stored under
the key `TR1` — the code looks the request up under the stripped key `R1`,
not under `prefix + R` as the claim says. -/
theorem create_light_response_claim_counterexample :
    (create_light_response storeOnlyR
      ⟨str "resp-id", str "TR1", str "idp"⟩ (str "own")).1 =
      .ok (⟨str "resp-id", str "test-light-request-id", str "own"⟩,
        reqW) ∧
    storeOnlyR (str "TR1") = none := by
  constructor <;> rfl

/-- Claim C1 (amended): a light response whose in-response-to value is the
role mark followed by `R` is accepted exactly when a light request is
stored under the key `R` (the value with the mark stripped); a value not
carrying the mark is a SecurityError before any store lookup (the lookup
trace is empty); a lookup finding nothing is the "cannot pair"
SecurityError. -/
theorem create_light_response_pairing (storage : Store LightRequest)
    (resp : LightResponse) (issuer : Str) :
    (resp.in_response_to_id.head? ≠ some tokenMark →
      create_light_response storage resp issuer =
        (.error .invalidInResponseTo, []) ∧
      Err.invalidInResponseTo.is_security_error = true) ∧
    (∀ rest, resp.in_response_to_id = tokenMark :: rest →
      storage rest = none →
      create_light_response storage resp issuer =
        (.error .cannotPairResponseAndRequest, [rest]) ∧
      Err.cannotPairResponseAndRequest.is_security_error = true) ∧
    (∀ rest req, resp.in_response_to_id = tokenMark :: rest →
      storage rest = some req →
      create_light_response storage resp issuer =
        (.ok ({ resp with in_response_to_id := req.id,
                          issuer := issuer }, req), [rest])) := by
  refine ⟨?_, ?_, ?_⟩
  · intro hnm
    refine ⟨?_, rfl⟩
    unfold create_light_response
    cases hir : resp.in_response_to_id with
    | nil => rfl
    | cons c rest =>
      rw [hir] at hnm
      have hc : ¬ c = tokenMark := by
        intro hc
        exact hnm (by rw [hc]; rfl)
      simp [hc]
  · intro rest hir hs
    refine ⟨?_, rfl⟩
    unfold create_light_response
    rw [hir]
    simp [hs]
  · intro rest req hir hs
    unfold create_light_response
    rw [hir]
    simp [hs]

/-- Witness for claim C1: the three branches evaluated concretely — no
mark, mark with an empty store, and mark with the request stored under the
stripped key. -/
theorem create_light_response_pairing_witness :
    create_light_response storeOnlyR
      ⟨str "resp-id", str "R1", str "idp"⟩ (str "own") =
      (.error .invalidInResponseTo, []) ∧
    create_light_response (fun _ => none)
      ⟨str "resp-id", str "TR1", str "idp"⟩ (str "own") =
      (.error .cannotPairResponseAndRequest, [str "R1"]) ∧
    create_light_response storeOnlyR
      ⟨str "resp-id", str "TR1", str "idp"⟩ (str "own") =
      (.ok (⟨str "resp-id", str "test-light-request-id", str "own"⟩,
        reqW), [str "R1"]) :=
  ⟨((create_light_response_pairing storeOnlyR
      ⟨str "resp-id", str "R1", str "idp"⟩ (str "own")).1
      (by decide)).1,
    ((create_light_response_pairing (fun _ => none)
      ⟨str "resp-id", str "TR1", str "idp"⟩ (str "own")).2.1
      (str "R1") (by decide) rfl).1,
    (create_light_response_pairing storeOnlyR
      ⟨str "resp-id", str "TR1", str "idp"⟩ (str "own")).2.2
      (str "R1") reqW (by decide) rfl⟩

/-- Modelled from the spec: the issuance-and-storage tail of
`IdentityProviderResponseView.post` (the proxy-service views module is
absent from `src`; the behaviour is pinned by its tests
`test_create_light_token` and `test_post_success`): a fresh token is
created exactly as in the request handler, the light response's id is
rewritten to the token id, and the response is stored under the token id.
The third component is the list of store `put` operations. -/
def issue_token_and_store_response (digest : Str → Str → Str → Str)
    (tsRepr : Nat → Str) (resp : LightResponse)
    (uuid token_issuer : Str) (now : Nat) :
    (LightToken × Str) × LightResponse × List (Str × LightResponse) :=
  let issued := create_light_token digest tsRepr uuid token_issuer now
  let resp2 := { resp with id := issued.1.id }
  (issued, resp2, [(issued.1.id, resp2)])

/-- Claim C7: after issuing a token for a light response, the token id,
the stored payload's id and the store key of the single `put` are all
identical (and equal to the mark followed by the fresh uuid). -/
theorem issue_token_and_store_response_ids (digest : Str → Str → Str → Str)
    (tsRepr : Nat → Str) (resp : LightResponse)
    (uuid token_issuer : Str) (now : Nat) :
    (issue_token_and_store_response digest tsRepr resp uuid token_issuer
      now).2.1.id =
      (issue_token_and_store_response digest tsRepr resp uuid token_issuer
        now).1.1.id ∧
    (issue_token_and_store_response digest tsRepr resp uuid token_issuer
      now).2.2 =
      [((issue_token_and_store_response digest tsRepr resp uuid
        token_issuer now).1.1.id,
        (issue_token_and_store_response digest tsRepr resp uuid
          token_issuer now).2.1)] ∧
    (issue_token_and_store_response digest tsRepr resp uuid token_issuer
      now).1.1.id = tokenMark :: uuid :=
  ⟨rfl, rfl, rfl⟩

/-- `CONNECTOR_SERVICE_PROVIDER['RESPONSE_SIGNATURE']` options consulted
by `create_saml_response`: `key_file` and `cert_file` (a missing or empty
value is `none`). -/
structure ResponseSignatureOptions where
  key_file : Option Str
  cert_file : Option Str
deriving DecidableEq

/-- `CONNECTOR_SERVICE_PROVIDER['RESPONSE_ENCRYPTION']` options consulted
by `create_saml_response`: `cert_file` (a missing or empty value is
`none`). -/
structure ResponseEncryptionOptions where
  cert_file : Option Str
deriving DecidableEq

/-- The Assertion Adapter calls `create_saml_response` can make, in
order. -/
inductive SamlResponseOp where
  | from_light_response
  | encrypt_assertion
  | sign_response
deriving DecidableEq

/-- `ConnectorResponseView.create_saml_response`
(src/eidas_node/connector/views.py, lines 294-328), modelled as the light
response with its issuer rewritten plus the ordered trace of Assertion
Adapter operations invoked: build the document, then encrypt the assertion
when encryption options with a certificate are configured, then sign the
response when signing options with both key and certificate are
configured.  (The commented-out `sign_assertion` call before the
encryption step is dead code and does not execute.) -/
def create_saml_response (resp : LightResponse) (issuer : Str)
    (signature_options : Option ResponseSignatureOptions)
    (encryption_options : Option ResponseEncryptionOptions) :
    LightResponse × List SamlResponseOp :=
  let sign := match signature_options with
    | some o => o.key_file.isSome && o.cert_file.isSome
    | none => false
  let encrypt := match encryption_options with
    | some e => e.cert_file.isSome
    | none => false
  ({ resp with issuer := issuer },
    [SamlResponseOp.from_light_response] ++
      (if encrypt then [SamlResponseOp.encrypt_assertion] else []) ++
      (if sign then [SamlResponseOp.sign_response] else []))

/-- Claim C8: with both encryption and signing configured, the operation
trace is build, encrypt, sign — encryption of the assertion always comes
before signing of the response, never the other way around. -/
theorem create_saml_response_encrypt_before_sign (resp : LightResponse)
    (issuer : Str) (o : ResponseSignatureOptions)
    (e : ResponseEncryptionOptions)
    (hk : o.key_file.isSome = true) (hc : o.cert_file.isSome = true)
    (hec : e.cert_file.isSome = true) :
    (create_saml_response resp issuer (some o) (some e)).2 =
      [SamlResponseOp.from_light_response,
        SamlResponseOp.encrypt_assertion,
        SamlResponseOp.sign_response] := by
  simp [create_saml_response, hk, hc, hec]

/-- Witness for claim C8: concrete option bundles with key and
certificates present produce the encrypt-then-sign trace. -/
theorem create_saml_response_encrypt_before_sign_witness :
    (create_saml_response ⟨str "r1", str "q1", str "iss"⟩ (str "own")
      (some ⟨some (str "key.pem"), some (str "cert.pem")⟩)
      (some ⟨some (str "cert.pem")⟩)).2 =
      [SamlResponseOp.from_light_response,
        SamlResponseOp.encrypt_assertion,
        SamlResponseOp.sign_response] :=
  create_saml_response_encrypt_before_sign
    ⟨str "r1", str "q1", str "iss"⟩ (str "own")
    ⟨some (str "key.pem"), some (str "cert.pem")⟩
    ⟨some (str "cert.pem")⟩ rfl rfl rfl

end EidasNode
